import Mathlib

/-!
Shallow embedding of the love-always-backend middleware and song model.

The definitions below are transcribed from the JavaScript source:
* `src/middleware/auth.js` — `authenticate`, `requireOwnershipOrAdmin`,
  the multer `storage.destination`, the audio/image file filters and the
  two multer size-limit configurations (`songUpload`, `profileImageUpload`);
* the song model (mongoose schema) — `addRating`, `approve`, `reject`,
  the `status` default of `'pending'`;
* the songs router — `POST /songs` status assignment and the
  `DELETE /songs/:id` handler.

External collaborators (the JWT library, the user store) are abstracted as
function parameters; machine numbers are modelled as `Nat`/`ℚ`.
-/

/-- User roles stored in the credential store (`role` field). -/
inductive Role where
  | standard
  | contributor
  | admin
deriving DecidableEq, Repr

/-- The slice of a credential-store user record that the middleware reads. -/
structure AuthUser where
  id : String
  role : Role
  isActive : Bool
deriving DecidableEq, Repr

/-- Outcome of `jwt.verify`: a decoded `userId`, a `TokenExpiredError`,
a `JsonWebTokenError`, or any other (unexpected) error, which the
middleware rethrows to its outer catch. -/
inductive VerifyResult where
  | valid (userId : String)
  | expired
  | malformed
  | otherError
deriving DecidableEq, Repr

/-- What an express middleware does with a request: send a JSON error
response with a status code, or attach the resolved user and call `next()`. -/
inductive AuthOutcome where
  | respond (status : Nat) (error : String) (message : String)
  | proceed (user : AuthUser)
deriving DecidableEq, Repr

/-- The HTTP status of an outcome (`none` when the middleware proceeds). -/
def AuthOutcome.statusOf : AuthOutcome → Option Nat
  | .respond s _ _ => some s
  | .proceed _ => none

/-- `authHeader.startsWith('Bearer ')`: the first 7 characters are
`Bearer` followed by a space. -/
def hasBearerPrefix (h : String) : Bool :=
  h.data.take 7 = "Bearer ".data

/-- `authenticate` from `src/middleware/auth.js` (lines 5–70), the
required-mode authentication middleware.  `verify` abstracts
`jwt.verify(token, secret)` and `findById` abstracts
`User.findById(decoded.userId)`; `authHeader` is
`req.header('Authorization')`.  Since the code first checks
`authHeader.startsWith('Bearer ')`, the JS `authHeader.replace('Bearer ', '')`
removes exactly the 7-character prefix, i.e. `authHeader.drop 7`. -/
def authenticate (verify : String → VerifyResult)
    (findById : String → Option AuthUser) : Option String → AuthOutcome
  | none =>
      .respond 401 "Access denied"
        "No valid token provided. Please include Bearer token in Authorization header."
  | some authHeader =>
      if hasBearerPrefix authHeader then
        let token := authHeader.drop 7
        if token = "" then
          .respond 401 "Access denied" "Token is required"
        else
          match verify token with
          | .expired =>
              .respond 401 "Token expired" "Your session has expired. Please login again."
          | .malformed =>
              .respond 401 "Invalid token" "The provided token is invalid."
          | .otherError =>
              .respond 500 "Authentication failed" "An error occurred during authentication"
          | .valid userId =>
              match findById userId with
              | none => .respond 401 "Invalid token" "User not found"
              | some user =>
                  if user.isActive then
                    .proceed user
                  else
                    .respond 401 "Account deactivated"
                      "Your account has been deactivated. Please contact support."
      else
        .respond 401 "Access denied"
          "No valid token provided. Please include Bearer token in Authorization header."

/-- A concrete token verifier used to witness the theorems. -/
def verifyEx : String → VerifyResult := fun t =>
  if t = "good" then .valid "u1"
  else if t = "gone" then .valid "nobody"
  else if t = "off" then .valid "u2"
  else if t = "old" then .expired
  else if t = "boom" then .otherError
  else .malformed

/-- A concrete credential store used to witness the theorems. -/
def findByIdEx : String → Option AuthUser := fun uid =>
  if uid = "u1" then some { id := "u1", role := .contributor, isActive := true }
  else if uid = "u2" then some { id := "u2", role := .standard, isActive := false }
  else none

/-- C1: in the required-mode authentication middleware, a missing or
non-Bearer header gives 401; a nonempty token failing verification gives
401, expired and malformed differing only in the message; a valid token
whose subject is not found gives 401; a found-but-inactive subject gives
401; otherwise the resolved user is attached and control proceeds; an
unexpected error gives 500. -/
theorem authenticate_required_mode_cases
    (verify : String → VerifyResult) (findById : String → Option AuthUser)
    (h : String) (u : AuthUser) :
    (authenticate verify findById none).statusOf = some 401 ∧
    (hasBearerPrefix h = false →
      (authenticate verify findById (some h)).statusOf = some 401) ∧
    (hasBearerPrefix h = true → h.drop 7 ≠ "" → verify (h.drop 7) = .expired →
      authenticate verify findById (some h) =
        .respond 401 "Token expired" "Your session has expired. Please login again.") ∧
    (hasBearerPrefix h = true → h.drop 7 ≠ "" → verify (h.drop 7) = .malformed →
      authenticate verify findById (some h) =
        .respond 401 "Invalid token" "The provided token is invalid.") ∧
    (hasBearerPrefix h = true → h.drop 7 ≠ "" →
        verify (h.drop 7) = .valid u.id → findById u.id = none →
      authenticate verify findById (some h) =
        .respond 401 "Invalid token" "User not found") ∧
    (hasBearerPrefix h = true → h.drop 7 ≠ "" →
        verify (h.drop 7) = .valid u.id → findById u.id = some u → u.isActive = false →
      (authenticate verify findById (some h)).statusOf = some 401) ∧
    (hasBearerPrefix h = true → h.drop 7 ≠ "" →
        verify (h.drop 7) = .valid u.id → findById u.id = some u → u.isActive = true →
      authenticate verify findById (some h) = .proceed u) ∧
    (hasBearerPrefix h = true → h.drop 7 ≠ "" → verify (h.drop 7) = .otherError →
      (authenticate verify findById (some h)).statusOf = some 500) := by
  refine ⟨rfl, ?_, ?_, ?_, ?_, ?_, ?_, ?_⟩ <;>
    intros <;> simp_all [authenticate, AuthOutcome.statusOf]

/-- Witness for C1: the case split realized on a concrete verifier and
store — an expired token gets 401, a valid token of an active user
proceeds with that user attached, an unexpected error gets 500. -/
theorem authenticate_required_mode_cases_witness :
    authenticate verifyEx findByIdEx (some "Bearer old") =
      .respond 401 "Token expired" "Your session has expired. Please login again." ∧
    authenticate verifyEx findByIdEx (some "Bearer good") =
      .proceed { id := "u1", role := .contributor, isActive := true } ∧
    (authenticate verifyEx findByIdEx (some "Bearer boom")).statusOf = some 500 := by
  have h1 := (authenticate_required_mode_cases verifyEx findByIdEx "Bearer old"
    { id := "u1", role := .contributor, isActive := true }).2.2.1
  have h2 := (authenticate_required_mode_cases verifyEx findByIdEx "Bearer good"
    { id := "u1", role := .contributor, isActive := true }).2.2.2.2.2.2.1
  have h3 := (authenticate_required_mode_cases verifyEx findByIdEx "Bearer boom"
    { id := "u1", role := .contributor, isActive := true }).2.2.2.2.2.2.2
  exact ⟨h1 (by decide) (by decide) (by decide),
    h2 (by decide) (by decide) (by decide) (by decide) (by decide),
    h3 (by decide) (by decide) (by decide)⟩

/-- `requireOwnershipOrAdmin` from `src/middleware/auth.js` (lines
134–177): with no attached identity it responds 401; an admin proceeds;
then the resource id is `req.params.id` — a JS-falsy value (absent
parameter or empty string) responds 400; equality of the caller's own id
with the resource id proceeds, anything else responds 403.  `user` is
`req.user`, `paramsId` is `req.params.id` (`none` = `undefined`). -/
def requireOwnershipOrAdmin (user : Option AuthUser) (paramsId : Option String) :
    AuthOutcome :=
  match user with
  | none =>
      .respond 401 "Authentication required"
        "You must be logged in to access this resource"
  | some u =>
      if u.role = .admin then .proceed u
      else
        match paramsId with
        | none => .respond 400 "Resource ID required" "Resource ID must be provided"
        | some resourceId =>
            if resourceId = "" then
              .respond 400 "Resource ID required" "Resource ID must be provided"
            else if u.id = resourceId then .proceed u
            else
              .respond 403 "Access denied" "You can only access your own resources"

/-- C2 counterexample: a non-admin identity on a request whose route path
carries no resource id gets HTTP 400, not the claimed proceed-or-403. -/
theorem requireOwnershipOrAdmin_no_id_400 :
    (requireOwnershipOrAdmin
      (some { id := "u1", role := .contributor, isActive := true }) none).statusOf
      = some 400 := rfl

/-- C2 amended: with no attached identity the middleware fails 401 first;
an admin always proceeds; a non-admin with a missing (or empty) resource
id fails 400; otherwise a non-admin proceeds exactly when its own id
equals the resource id taken from the route path, and fails 403
otherwise. -/
theorem requireOwnershipOrAdmin_cases
    (u : AuthUser) (pid : Option String) (rid : String) :
    (requireOwnershipOrAdmin none pid =
      .respond 401 "Authentication required"
        "You must be logged in to access this resource") ∧
    (u.role = .admin → requireOwnershipOrAdmin (some u) pid = .proceed u) ∧
    (u.role ≠ .admin → (requireOwnershipOrAdmin (some u) none).statusOf = some 400) ∧
    (u.role ≠ .admin → rid ≠ "" →
      (requireOwnershipOrAdmin (some u) (some rid) = .proceed u ↔ u.id = rid)) ∧
    (u.role ≠ .admin → rid ≠ "" → u.id ≠ rid →
      requireOwnershipOrAdmin (some u) (some rid) =
        .respond 403 "Access denied" "You can only access your own resources") := by
  refine ⟨rfl, ?_, ?_, ?_, ?_⟩ <;>
    intros <;> simp_all [requireOwnershipOrAdmin, AuthOutcome.statusOf]

/-- Witness for C2 amended: an admin proceeds on a foreign resource, an
owner proceeds on its own id, a non-owner contributor gets 403. -/
theorem requireOwnershipOrAdmin_cases_witness :
    requireOwnershipOrAdmin (some { id := "a1", role := .admin, isActive := true })
        (some "u9") = .proceed { id := "a1", role := .admin, isActive := true } ∧
    requireOwnershipOrAdmin (some { id := "u1", role := .contributor, isActive := true })
        (some "u1") = .proceed { id := "u1", role := .contributor, isActive := true } ∧
    requireOwnershipOrAdmin (some { id := "u1", role := .contributor, isActive := true })
        (some "u9") =
      .respond 403 "Access denied" "You can only access your own resources" := by
  have ha := (requireOwnershipOrAdmin_cases
    { id := "a1", role := .admin, isActive := true } (some "u9") "u9").2.1
  have ho := (requireOwnershipOrAdmin_cases
    { id := "u1", role := .contributor, isActive := true } (some "u1") "u1").2.2.2.1
  have hf := (requireOwnershipOrAdmin_cases
    { id := "u1", role := .contributor, isActive := true } (some "u9") "u9").2.2.2.2
  exact ⟨ha (by decide), (ho (by decide) (by decide)).mpr (by decide),
    hf (by decide) (by decide) (by decide)⟩

/-- Track moderation status (`songSchema.status`, enum with default
`'pending'`). -/
inductive Status where
  | pending
  | approved
  | rejected
  | hidden
deriving DecidableEq, Repr

/-- The moderation-relevant fields that the `POST /songs` handler sets on
a freshly created track. -/
structure CreateModeration where
  status : Status
  moderatedBy : Option String
  moderatedAt : Option Nat
deriving DecidableEq, Repr

/-- The `POST /songs` handler (songs router, lines 344–352): admins get
`status = 'approved'`, `moderatedBy = req.user._id`, `moderatedAt = new
Date()`; everyone else leaves `status` unset, so the schema default
`'pending'` applies (song model, lines 89–93) with no moderator or
timestamp. `now` is the clock reading taken by `new Date()`. -/
def songCreateModeration (uploaderRole : Role) (uploaderId : String) (now : Nat) :
    CreateModeration :=
  if uploaderRole = .admin then
    { status := .approved, moderatedBy := some uploaderId, moderatedAt := some now }
  else
    { status := .pending, moderatedBy := none, moderatedAt := none }

/-- C3: an admin-authored upload is created `approved` with moderator =
the uploader's own id and moderation timestamp = the creation time; any
non-admin upload is created `pending`. -/
theorem songCreateModeration_status (role : Role) (uid : String) (now : Nat) :
    (role = .admin →
      songCreateModeration role uid now =
        { status := .approved, moderatedBy := some uid, moderatedAt := some now }) ∧
    (role ≠ .admin → (songCreateModeration role uid now).status = .pending) := by
  constructor <;> intro hr <;> simp [songCreateModeration, hr]

/-- Witness for C3: an admin upload is approved on the spot; a
contributor upload starts pending. -/
theorem songCreateModeration_status_witness :
    songCreateModeration .admin "a1" 17 =
      { status := .approved, moderatedBy := some "a1", moderatedAt := some 17 } ∧
    (songCreateModeration .contributor "u1" 17).status = .pending := by
  exact ⟨(songCreateModeration_status .admin "a1" 17).1 rfl,
    (songCreateModeration_status .contributor "u1" 17).2 (by decide)⟩

/-- `songUpload` multer configuration (upload middleware, lines 296–303):
`limits.fileSize = 100 * 1024 * 1024`.  Multer applies this single
per-file byte cap to every file of the request, whatever its field. -/
def songUploadFileSizeLimit : Nat := 100 * 1024 * 1024

/-- `profileImageUpload` multer configuration (upload middleware, lines
306–313): `limits.fileSize = 5 * 1024 * 1024`. -/
def profileImageUploadFileSizeLimit : Nat := 5 * 1024 * 1024

/-- Multer's size check: a file whose byte size exceeds the configured
`fileSize` limit triggers `LIMIT_FILE_SIZE`, which `uploadSongFiles` /
`uploadProfileImage` map to an HTTP 400 response. -/
def multerSizeRejected (limit fileSize : Nat) : Bool :=
  limit < fileSize

/-- Whether the song-upload pipeline rejects a file of `fileSize` bytes on
the field `fieldname` for its size.  The configuration has one `fileSize`
limit for the whole upload instance, so the field name plays no part. -/
def songUploadSizeRejected (fieldname : String) (fileSize : Nat) : Bool :=
  multerSizeRejected songUploadFileSizeLimit fileSize

/-- Whether the profile-image (avatar) pipeline rejects a file of
`fileSize` bytes for its size. -/
def profileImageSizeRejected (fileSize : Nat) : Bool :=
  multerSizeRejected profileImageUploadFileSizeLimit fileSize

/-- C4 counterexample: a 6 MiB `coverImage` in the song-upload pipeline is
NOT rejected for size (the claimed independent 5 MiB cap on `coverImage`
does not exist there), while the same file would exceed the 5 MiB cap of
the separate profile-image configuration. -/
theorem songUpload_coverImage_6MiB_accepted :
    songUploadSizeRejected "coverImage" (6 * 1024 * 1024) = false ∧
    profileImageSizeRejected (6 * 1024 * 1024) = true := by decide

/-- C4 amended: the song-upload configuration enforces a single 100 MiB
per-file cap that applies to `coverImage` exactly as to `audio`; the
5 MiB cap lives only in the profile-image (avatar) configuration. -/
theorem songUpload_size_caps (fieldname : String) (size : Nat) :
    (size ≤ 100 * 1024 * 1024 → songUploadSizeRejected fieldname size = false) ∧
    (100 * 1024 * 1024 < size → songUploadSizeRejected fieldname size = true) ∧
    (songUploadSizeRejected "coverImage" size = songUploadSizeRejected "audio" size) ∧
    (size ≤ 5 * 1024 * 1024 → profileImageSizeRejected size = false) ∧
    (5 * 1024 * 1024 < size → profileImageSizeRejected size = true) := by
  refine ⟨?_, ?_, rfl, ?_, ?_⟩ <;> intro hle <;>
    simp_all [songUploadSizeRejected, profileImageSizeRejected, multerSizeRejected,
      songUploadFileSizeLimit, profileImageUploadFileSizeLimit, Nat.not_lt, Nat.not_le]

/-- Witness for C4 amended: a 100 MiB audio file passes, a file one byte
over the cap is rejected, a 5 MiB avatar passes and a 6 MiB avatar is
rejected. -/
theorem songUpload_size_caps_witness :
    songUploadSizeRejected "audio" (100 * 1024 * 1024) = false ∧
    songUploadSizeRejected "audio" (100 * 1024 * 1024 + 1) = true ∧
    profileImageSizeRejected (5 * 1024 * 1024) = false ∧
    profileImageSizeRejected (6 * 1024 * 1024) = true := by
  have h := songUpload_size_caps "audio" (100 * 1024 * 1024)
  have h2 := songUpload_size_caps "audio" (100 * 1024 * 1024 + 1)
  have h3 := songUpload_size_caps "audio" (5 * 1024 * 1024)
  have h4 := songUpload_size_caps "audio" (6 * 1024 * 1024)
  exact ⟨h.1 (by decide), h2.2.1 (by decide), h3.2.2.2.1 (by decide),
    h4.2.2.2.2 (by decide)⟩

/-- `storage.destination` (upload middleware, lines 213–224): the upload
path starts as `uploads/temp` and is changed only for the field names
`audio` and `coverImage`. -/
def destination (fieldname : String) : String :=
  if fieldname = "audio" then "uploads/audio"
  else if fieldname = "coverImage" then "uploads/images"
  else "uploads/temp"

/-- The URL that `uploadProfileImage` (upload middleware, lines 382–417)
attaches for a stored avatar: `/uploads/images/<filename>`. -/
def profileImageUrl (filename : String) : String :=
  "/uploads/images/" ++ filename

/-- C5: destination by field name as the code computes it — `audio` and
`coverImage` go where the claim says, but an `avatar` file falls through
to `uploads/temp`, even though `uploadProfileImage` itself advertises the
stored avatar under `/uploads/images/`. -/
theorem destination_by_fieldname :
    destination "audio" = "uploads/audio" ∧
    destination "coverImage" = "uploads/images" ∧
    destination "avatar" = "uploads/temp" ∧
    destination "somethingElse" = "uploads/temp" ∧
    profileImageUrl "p.png" = "/uploads/images/p.png" := by
  refine ⟨rfl, rfl, rfl, rfl, rfl⟩

/-- The rating slice of `songSchema.stats`: `averageRating` (default 0)
and `ratingCount` (default 0).  JS numbers carry the average; the
arithmetic performed on them here (sums, one division) is exact, so the
average is modelled as a rational. -/
structure RatingStats where
  averageRating : ℚ
  ratingCount : ℕ
deriving DecidableEq, Repr

/-- `songSchema.methods.addRating` (song model, lines 230–240): out-of-range
ratings throw before anything is touched; otherwise
`totalRating = averageRating * ratingCount`, the count is incremented and
the average becomes `(totalRating + rating) / ratingCount`. -/
def addRating (stats : RatingStats) (rating : ℚ) : Except String RatingStats :=
  if rating < 1 ∨ rating > 5 then
    .error "Rating must be between 1 and 5"
  else
    let totalRating := stats.averageRating * stats.ratingCount
    let newCount := stats.ratingCount + 1
    .ok { averageRating := (totalRating + rating) / newCount, ratingCount := newCount }

/-- C6: for any in-range rating, `addRating` bumps the count by one and
sets the average to the running weighted mean
`(priorAverage * priorCount + r) / (priorCount + 1)`; on a track with no
prior ratings, `addRating 5` gives average 5 and count 1, and a
subsequent `addRating 3` gives average 4 and count 2. -/
theorem addRating_weighted_mean (stats : RatingStats) (r : ℚ)
    (h1 : 1 ≤ r) (h5 : r ≤ 5) :
    addRating stats r =
      .ok { averageRating :=
              (stats.averageRating * stats.ratingCount + r) / (stats.ratingCount + 1),
            ratingCount := stats.ratingCount + 1 } ∧
    addRating { averageRating := 0, ratingCount := 0 } 5 =
      .ok { averageRating := 5, ratingCount := 1 } ∧
    addRating { averageRating := 5, ratingCount := 1 } 3 =
      .ok { averageRating := 4, ratingCount := 2 } := by
  refine ⟨?_, by norm_num [addRating], by norm_num [addRating]⟩
  simp only [addRating]
  rw [if_neg]
  · push_cast
    ring_nf
  · rw [not_or]
    exact ⟨not_lt.mpr h1, not_lt.mpr h5⟩

/-- Witness for C6: the weighted-mean step evaluated at a concrete track
with average 4 over 2 ratings receiving a 1. -/
theorem addRating_weighted_mean_witness :
    addRating { averageRating := 4, ratingCount := 2 } 1 =
      .ok { averageRating := 3, ratingCount := 3 } := by
  have h := (addRating_weighted_mean { averageRating := 4, ratingCount := 2 } 1
    (by norm_num) (by norm_num)).1
  rw [h]
  norm_num

/-- C10: an out-of-range rating makes `addRating` fail with the range
error and produce no updated stats — the throw happens before any
mutation, so the track keeps its prior `averageRating` and
`ratingCount`. -/
theorem addRating_out_of_range_error (stats : RatingStats) (r : ℚ)
    (h : r < 1 ∨ r > 5) :
    addRating stats r = .error "Rating must be between 1 and 5" := by
  simp [addRating, h]

/-- Witness for C10: rating 6 (and rating 0) fail on a live track. -/
theorem addRating_out_of_range_error_witness :
    addRating { averageRating := 4, ratingCount := 2 } 6 =
      .error "Rating must be between 1 and 5" ∧
    addRating { averageRating := 4, ratingCount := 2 } 0 =
      .error "Rating must be between 1 and 5" := by
  exact ⟨addRating_out_of_range_error { averageRating := 4, ratingCount := 2 } 6
      (by norm_num),
    addRating_out_of_range_error { averageRating := 4, ratingCount := 2 } 0
      (by norm_num)⟩

/-- JS `path.extname(name)`: the extension of the basename (the part
after the last `/`), running from its last dot to the end; empty when the
basename has no dot, when its only leading dot marks a dotfile, or for
`..`. -/
def extname (p : String) : String :=
  let base := (p.data.reverse.takeWhile (fun c => c ≠ '/')).reverse
  let afterDotRev := base.reverse.takeWhile (fun c => c ≠ '.')
  if base.contains '.' = false then ""
  else
    let i := base.length - 1 - afterDotRev.length
    if i = 0 then ""
    else if base = ['.', '.'] then ""
    else String.mk (base.drop i)

/-- JS `String.prototype.toLowerCase` on an extension (ASCII). -/
def lowerAscii (s : String) : String :=
  String.mk (s.data.map Char.toLower)

/-- The `allowedMimes` list of `audioFileFilter` (upload middleware,
lines 239–252). -/
def audioAllowedMimes : List String :=
  ["audio/mpeg", "audio/mp3", "audio/wav", "audio/wave", "audio/x-wav",
   "audio/aac", "audio/ogg", "audio/webm", "audio/mp4", "audio/m4a",
   "audio/x-m4a", "audio/flac"]

/-- The `allowedExtensions` list of `audioFileFilter` (line 254). -/
def audioAllowedExtensions : List String :=
  [".mp3", ".wav", ".aac", ".ogg", ".webm", ".mp4", ".m4a", ".flac"]

/-- The `allowedMimes` list of `imageFileFilter` (lines 266–272). -/
def imageAllowedMimes : List String :=
  ["image/jpeg", "image/jpg", "image/png", "image/gif", "image/webp"]

/-- The `allowedExtensions` list of `imageFileFilter` (line 274). -/
def imageAllowedExtensions : List String :=
  [".jpg", ".jpeg", ".png", ".gif", ".webp"]

/-- The parts of a multer file object that the filters read. -/
structure UploadFile where
  fieldname : String
  originalname : String
  mimetype : String
deriving DecidableEq, Repr

/-- A file filter's verdict: `cb(null, true)` or `cb(new Error(msg), false)`. -/
inductive FilterResult where
  | accept
  | reject (message : String)
deriving DecidableEq, Repr

/-- `audioFileFilter` (upload middleware, lines 238–262): accept when the
declared MIME type is allow-listed OR the lowercased extension is. -/
def audioFileFilter (file : UploadFile) : FilterResult :=
  let fileExtension := lowerAscii (extname file.originalname)
  if file.mimetype ∈ audioAllowedMimes ∨ fileExtension ∈ audioAllowedExtensions then
    .accept
  else
    .reject ("Invalid audio format. Allowed formats: " ++
      String.intercalate ", " audioAllowedExtensions)

/-- `imageFileFilter` (upload middleware, lines 265–282): same OR-policy
over the image allow-lists. -/
def imageFileFilter (file : UploadFile) : FilterResult :=
  let fileExtension := lowerAscii (extname file.originalname)
  if file.mimetype ∈ imageAllowedMimes ∨ fileExtension ∈ imageAllowedExtensions then
    .accept
  else
    .reject ("Invalid image format. Allowed formats: " ++
      String.intercalate ", " imageAllowedExtensions)

/-- `combinedFileFilter` (lines 285–293): dispatch on the field name;
any field other than `audio`/`coverImage` is rejected outright. -/
def combinedFileFilter (file : UploadFile) : FilterResult :=
  if file.fieldname = "audio" then audioFileFilter file
  else if file.fieldname = "coverImage" then imageFileFilter file
  else .reject "Invalid field name"

/-- C7: each filter accepts a file exactly when its declared MIME type is
in the fixed MIME allow-list or its lowercased extension is in the fixed
extension allow-list; the song-upload dispatcher applies the audio filter
to the `audio` field and the image filter to `coverImage`; concretely, a
file whose MIME type and extension disagree is accepted as soon as one of
the two matches, and rejected when neither does. -/
theorem fileFilter_or_policy (file : UploadFile) :
    (audioFileFilter file = .accept ↔
      file.mimetype ∈ audioAllowedMimes ∨
        lowerAscii (extname file.originalname) ∈ audioAllowedExtensions) ∧
    (imageFileFilter file = .accept ↔
      file.mimetype ∈ imageAllowedMimes ∨
        lowerAscii (extname file.originalname) ∈ imageAllowedExtensions) ∧
    (combinedFileFilter { file with fieldname := "audio" } =
      audioFileFilter { file with fieldname := "audio" }) ∧
    (combinedFileFilter { file with fieldname := "coverImage" } =
      imageFileFilter { file with fieldname := "coverImage" }) ∧
    audioFileFilter
      { fieldname := "audio", originalname := "song.MP3", mimetype := "text/plain" }
      = .accept ∧
    audioFileFilter
      { fieldname := "audio", originalname := "song.xyz", mimetype := "audio/mpeg" }
      = .accept ∧
    imageFileFilter
      { fieldname := "coverImage", originalname := "cover.png",
        mimetype := "application/octet-stream" } = .accept ∧
    audioFileFilter
      { fieldname := "audio", originalname := "song.xyz", mimetype := "text/plain" }
      = .reject ("Invalid audio format. Allowed formats: " ++
          String.intercalate ", " audioAllowedExtensions) := by
  refine ⟨?_, ?_, ?_, ?_, by decide, by decide, by decide, by decide⟩
  · by_cases hc : file.mimetype ∈ audioAllowedMimes ∨
        lowerAscii (extname file.originalname) ∈ audioAllowedExtensions
    · simp [audioFileFilter, hc]
    · simp [audioFileFilter, hc]
  · by_cases hc : file.mimetype ∈ imageAllowedMimes ∨
        lowerAscii (extname file.originalname) ∈ imageAllowedExtensions
    · simp [imageFileFilter, hc]
    · simp [imageFileFilter, hc]
  · simp [combinedFileFilter]
  · simp [combinedFileFilter]

/-- The slice of a track record that the moderation methods and the
delete handler read and write. -/
structure Song where
  uploadedBy : String
  isActive : Bool
  status : Status
  moderatedBy : Option String
  moderatedAt : Option Nat
  moderationNotes : String
deriving DecidableEq, Repr

/-- `songSchema.methods.approve` (song model, lines 243–249): set status
`approved` and overwrite moderator, timestamp and notes, with no guard on
the prior state.  `now` is `new Date()`. -/
def approve (song : Song) (moderatorId : String) (now : Nat) (notes : String) : Song :=
  { song with
      status := .approved, moderatedBy := some moderatorId,
      moderatedAt := some now, moderationNotes := notes }

/-- `songSchema.methods.reject` (song model, lines 252–258): symmetric to
`approve` with status `rejected`. -/
def reject (song : Song) (moderatorId : String) (now : Nat) (notes : String) : Song :=
  { song with
      status := .rejected, moderatedBy := some moderatorId,
      moderatedAt := some now, moderationNotes := notes }

/-- C9: from any prior moderation state, `approve` unconditionally sets
status `approved` and overwrites moderator, timestamp and notes, and
`reject` is symmetric with `rejected`; approving twice leaves the track
exactly as a single approval with the second call's arguments would —
the second moderator and timestamp replace the first's, with no
transition guard. -/
theorem approve_reject_unconditional (s : Song) (m1 m2 : String)
    (t1 t2 : Nat) (n1 n2 : String) :
    (approve s m1 t1 n1).status = .approved ∧
    (approve s m1 t1 n1).moderatedBy = some m1 ∧
    (approve s m1 t1 n1).moderatedAt = some t1 ∧
    (approve s m1 t1 n1).moderationNotes = n1 ∧
    approve (approve s m1 t1 n1) m2 t2 n2 = approve s m2 t2 n2 ∧
    (reject s m1 t1 n1).status = .rejected ∧
    (reject s m1 t1 n1).moderatedBy = some m1 ∧
    (reject s m1 t1 n1).moderatedAt = some t1 ∧
    (reject s m1 t1 n1).moderationNotes = n1 ∧
    reject (reject s m1 t1 n1) m2 t2 n2 = reject s m2 t2 n2 ∧
    reject (approve s m1 t1 n1) m2 t2 n2 = reject s m2 t2 n2 ∧
    approve (reject s m1 t1 n1) m2 t2 n2 = approve s m2 t2 n2 := by
  refine ⟨rfl, rfl, rfl, rfl, rfl, rfl, rfl, rfl, rfl, rfl, rfl, rfl⟩

/-- The `DELETE /songs/:id` handler (songs router, lines 503–537).
`song?` is the result of `Song.findById(req.params.id)`; the returned
pair is the HTTP status and the state of the record afterwards (soft
delete keeps the record, only flipping `isActive`). -/
def deleteSongHandler (song? : Option Song) (user : AuthUser) : Nat × Option Song :=
  match song? with
  | none => (404, none)
  | some song =>
      if song.uploadedBy ≠ user.id ∧ user.role ≠ .admin then
        (403, some song)
      else
        (200, some { song with isActive := false })

/-- C8: deleting a nonexistent track yields 404; a non-admin caller who
is not the uploader gets 403 and the track is unchanged; the owner or an
admin gets 200 and the track's active flag becomes false while the
record itself is kept. -/
theorem deleteSong_ownership (song : Song) (u : AuthUser) :
    deleteSongHandler none u = (404, none) ∧
    (song.uploadedBy ≠ u.id → u.role ≠ .admin →
      deleteSongHandler (some song) u = (403, some song)) ∧
    (song.uploadedBy = u.id ∨ u.role = .admin →
      deleteSongHandler (some song) u =
        (200, some { song with isActive := false })) := by
  refine ⟨rfl, ?_, ?_⟩
  · intro h1 h2
    simp [deleteSongHandler, h1, h2]
  · intro h
    rcases h with h | h <;> simp [deleteSongHandler, h]

/-- Witness for C8: a foreign contributor gets 403 with the track intact,
the owner soft-deletes with 200, an admin soft-deletes a foreign track
with 200. -/
theorem deleteSong_ownership_witness :
    deleteSongHandler
        (some { uploadedBy := "u1", isActive := true, status := .approved,
                moderatedBy := none, moderatedAt := none, moderationNotes := "" })
        { id := "u9", role := .contributor, isActive := true } =
      (403, some { uploadedBy := "u1", isActive := true, status := .approved,
                   moderatedBy := none, moderatedAt := none, moderationNotes := "" }) ∧
    deleteSongHandler
        (some { uploadedBy := "u1", isActive := true, status := .approved,
                moderatedBy := none, moderatedAt := none, moderationNotes := "" })
        { id := "u1", role := .contributor, isActive := true } =
      (200, some { uploadedBy := "u1", isActive := false, status := .approved,
                   moderatedBy := none, moderatedAt := none, moderationNotes := "" }) ∧
    deleteSongHandler
        (some { uploadedBy := "u1", isActive := true, status := .approved,
                moderatedBy := none, moderatedAt := none, moderationNotes := "" })
        { id := "a1", role := .admin, isActive := true } =
      (200, some { uploadedBy := "u1", isActive := false, status := .approved,
                   moderatedBy := none, moderatedAt := none, moderationNotes := "" }) := by
  refine ⟨?_, ?_, ?_⟩
  · exact (deleteSong_ownership
      { uploadedBy := "u1", isActive := true, status := .approved,
        moderatedBy := none, moderatedAt := none, moderationNotes := "" }
      { id := "u9", role := .contributor, isActive := true }).2.1
      (by decide) (by decide)
  · exact (deleteSong_ownership
      { uploadedBy := "u1", isActive := true, status := .approved,
        moderatedBy := none, moderatedAt := none, moderationNotes := "" }
      { id := "u1", role := .contributor, isActive := true }).2.2
      (Or.inl (by decide))
  · exact (deleteSong_ownership
      { uploadedBy := "u1", isActive := true, status := .approved,
        moderatedBy := none, moderatedAt := none, moderationNotes := "" }
      { id := "a1", role := .admin, isActive := true }).2.2
      (Or.inr rfl)
